import Mathlib

/-!
Verification development for the BrickLink order price calculator
(src/Price_Calculator.py).  Monetary amounts are modelled as exact
rationals; Python's ZeroDivisionError is modelled by an explicit
Except value, since rational division by zero would silently yield 0
where the program raises.
-/

/-- One line item of an order, as stored in items_data: the code's dict
keys name, qty, unit_price, total. -/
structure LineItem where
  name : String
  qty : Nat
  unit_price : ℚ
  total : ℚ
deriving DecidableEq

/-- The order record produced by the parsing layer and consumed by
calculate_costs_from_data (the keys read at lines 694-704). -/
structure OrderData where
  order_number : String
  items_data : List LineItem
  subtotal : ℚ
  shipping : ℚ
  insurance : ℚ
  additional_charges_1 : ℚ
  additional_charges_2 : ℚ
  credit : ℚ
  grand_total : ℚ
  original_currency : String
  exchange_rate : ℚ
deriving DecidableEq

/-- Line 707: total_additional_costs = shipping + insurance +
additional_charges_1 + additional_charges_2 - credit. -/
def totalAdditionalCosts (o : OrderData) : ℚ :=
  o.shipping + o.insurance + o.additional_charges_1 + o.additional_charges_2 - o.credit

/-- Line 710: additional_cost_rate = total_additional_costs / subtotal
if subtotal > 0 else 0. -/
def additionalCostRate (o : OrderData) : ℚ :=
  if 0 < o.subtotal then totalAdditionalCosts o / o.subtotal else 0

/-- The per-item quantities computed in the loop at lines 737-748. -/
structure ItemRow where
  name : String
  qty : Nat
  unit_price : ℚ
  item_additional_cost : ℚ
  additional_cost_per_unit : ℚ
  true_unit_cost : ℚ
deriving DecidableEq

/-- The only runtime error the engine can raise: Python's
ZeroDivisionError from item_additional_cost / item qty at line 742. -/
inductive CalcError where
  | divisionByZero
deriving DecidableEq

/-- Body of one iteration of the loop at lines 737-748 (with qty known
nonzero): item_additional_cost = total * rate, per-unit share, and
true_unit_cost = unit_price + per-unit share. -/
def rowOf (rate : ℚ) (it : LineItem) : ItemRow :=
  let itemAdditionalCost := it.total * rate
  let perUnit := itemAdditionalCost / (it.qty : ℚ)
  { name := it.name
    qty := it.qty
    unit_price := it.unit_price
    item_additional_cost := itemAdditionalCost
    additional_cost_per_unit := perUnit
    true_unit_cost := it.unit_price + perUnit }

/-- The item loop of calculate_costs_from_data: processes items in
order; a zero quantity raises ZeroDivisionError at the division in
line 742, aborting the whole calculation. -/
def processItems (rate : ℚ) : List LineItem → Except CalcError (List ItemRow)
  | [] => .ok []
  | it :: rest =>
    if it.qty = 0 then .error .divisionByZero
    else
      match processItems rate rest with
      | .error e => .error e
      | .ok rows => .ok (rowOf rate it :: rows)

/-- Everything calculate_costs_from_data computes and reports:
the rate (line 710), the per-item rows (lines 737-748), the totals and
the reconciliation difference printed at lines 751-753. -/
structure CalcResult where
  additional_cost_rate : ℚ
  rows : List ItemRow
  total_additional_costs : ℚ
  total_additional_distributed : ℚ
  difference : ℚ
  total_items : Nat
deriving DecidableEq

/-- Shallow embedding of calculate_costs_from_data (lines 692-756).
Printing is modelled by the returned record; the call to
create_csv_output is modelled separately. -/
def calculate_costs_from_data (o : OrderData) : Except CalcError CalcResult :=
  let tac := totalAdditionalCosts o
  let rate := additionalCostRate o
  match processItems rate o.items_data with
  | .error e => .error e
  | .ok rows =>
    let distributed := (rows.map (fun row => row.item_additional_cost)).sum
    .ok { additional_cost_rate := rate
          rows := rows
          total_additional_costs := tac
          total_additional_distributed := distributed
          difference := |tac - distributed|
          total_items := (o.items_data.map (fun it => it.qty)).sum }

/-- Conversion of one item's prices at lines 130-135: unit_price and
total each multiplied by the exchange rate. -/
def convertItem (rate : ℚ) (it : LineItem) : LineItem :=
  { it with unit_price := it.unit_price * rate, total := it.total * rate }

/-- Shallow embedding of apply_currency_conversion (lines 100-141) with
the user-supplied exchange rate passed as an argument (the code loops
on input until the rate is positive).  When the original currency is
not AUD, every monetary field and every item price is multiplied by
the rate; otherwise the record is returned unchanged. -/
def apply_currency_conversion (o : OrderData) (rate : ℚ) : OrderData :=
  if o.original_currency ≠ "AUD" then
    { o with
      exchange_rate := rate
      subtotal := o.subtotal * rate
      shipping := o.shipping * rate
      insurance := o.insurance * rate
      additional_charges_1 := o.additional_charges_1 * rate
      additional_charges_2 := o.additional_charges_2 * rate
      credit := o.credit * rate
      grand_total := o.grand_total * rate
      items_data := o.items_data.map (convertItem rate) }
  else o

/-- Python's round to an integer: nearest integer, ties to even. -/
def pyRound (x : ℚ) : ℤ :=
  let f := ⌊x⌋
  let frac := x - (f : ℚ)
  if frac < 1 / 2 then f
  else if 1 / 2 < frac then f + 1
  else if f % 2 = 0 then f else f + 1

/-- Python's round(x, n): rounding to n decimal places. -/
def roundPlaces (n : Nat) (x : ℚ) : ℚ :=
  (pyRound (x * 10 ^ n) : ℚ) / 10 ^ n

/-- One data row of the CSV produced by create_csv_output
(lines 774-801); only the numeric cells are modelled, and the
two currency-schema variants share the same numeric content for the
AUD columns, so a single row type suffices. -/
structure CsvRow where
  name : String
  qty : Nat
  original_aud : ℚ
  new_aud : ℚ
deriving DecidableEq

/-- The per-item computation of create_csv_output (lines 774-791):
the additional cost per unit and true unit cost are recomputed from
the unrounded additional_cost_rate, and rounding to 4 places happens
only when the output cells are populated. -/
def csvRowOf (rate : ℚ) (it : LineItem) : CsvRow :=
  let itemAdditionalCost := it.total * rate
  let additionalCostPerUnit := itemAdditionalCost / (it.qty : ℚ)
  let trueUnitCost := it.unit_price + additionalCostPerUnit
  { name := it.name
    qty := it.qty
    original_aud := roundPlaces 4 it.unit_price
    new_aud := roundPlaces 4 trueUnitCost }

/-- The item rows written by create_csv_output, given the
additional_cost_rate computed by calculate_costs_from_data (which is
what the code passes in at line 756). -/
def create_csv_output (o : OrderData) (rate : ℚ) : List CsvRow :=
  o.items_data.map (csvRowOf rate)

/-- The financial amounts extracted by
extract_currency_and_amounts_advanced (lines 1026-1042); a pattern
that fails to match yields 0.0, so every field is total here. -/
structure Amounts where
  order_total : ℚ
  shipping : ℚ
  insurance : ℚ
  additional_1 : ℚ
  additional_2 : ℚ
  credit : ℚ
  grand_total : ℚ
deriving DecidableEq

/-- The overhead sum computed at lines 1053-1059: shipping + insurance
+ additional_1 + additional_2 - credit. -/
def overheadOfAmounts (a : Amounts) : ℚ :=
  a.shipping + a.insurance + a.additional_1 + a.additional_2 - a.credit

/-- Shallow embedding of calculate_overhead_percentage_advanced
(lines 1046-1063): returns 0 when order_total is 0, otherwise the
overhead as a percentage of order_total, rounded to 2 decimal
places. -/
def calculate_overhead_percentage_advanced (a : Amounts) : ℚ :=
  if a.order_total = 0 then 0
  else roundPlaces 2 (overheadOfAmounts a / a.order_total * 100)

/-- The numeric cells of one output row built by
process_single_pdf_advanced (lines 975-997). -/
structure AdvRow where
  quantity : Nat
  original_unit_price : ℚ
  overhead_percentage : ℚ
  overhead_amount : ℚ
  adjusted_unit_price : ℚ
  original_total : ℚ
  adjusted_total : ℚ
deriving DecidableEq

/-- The per-item computation at lines 969-997: the per-unit overhead is
unit_price * (overhead_percentage / 100), where overhead_percentage is
the already-rounded value returned by
calculate_overhead_percentage_advanced. -/
def processAdvItem (pct : ℚ) (it : LineItem) : AdvRow :=
  let originalPrice := it.unit_price
  let overheadAmount := originalPrice * (pct / 100)
  let adjustedPrice := originalPrice + overheadAmount
  { quantity := it.qty
    original_unit_price := roundPlaces 4 originalPrice
    overhead_percentage := pct
    overhead_amount := roundPlaces 4 overheadAmount
    adjusted_unit_price := roundPlaces 4 adjustedPrice
    original_total := roundPlaces 2 it.total
    adjusted_total := roundPlaces 2 (adjustedPrice * (it.qty : ℚ)) }

/-- A PDF file handed to process_single_pdf_advanced: either the text
extraction succeeds, yielding the extracted amounts and items, or it
raises inside the try block (for example pdfplumber failing to open
the file). -/
inductive PdfSource where
  | readable (amounts : Amounts) (items : List LineItem)
  | unreadable
deriving DecidableEq

/-- Shallow embedding of process_single_pdf_advanced (lines 939-1003):
any exception inside the try block is caught at lines 1001-1003 and an
empty item list is returned; otherwise each extracted item is turned
into a row using the rounded overhead percentage. -/
def process_single_pdf_advanced (src : PdfSource) : List AdvRow :=
  match src with
  | .unreadable => []
  | .readable a items =>
    let pct := calculate_overhead_percentage_advanced a
    items.map (processAdvItem pct)

/-- The observable outcome of convert_all_pdfs_to_csv (lines 898-937):
one success flag per input file in order (SUCCESS iff items were
extracted, lines 924-930), the concatenated rows of all files, and
the final total item count reported at line 935. -/
structure BatchSummary where
  outcomes : List Bool
  all_items : List AdvRow
  total_items : Nat
deriving DecidableEq

/-- Shallow embedding of the batch loop of convert_all_pdfs_to_csv
(lines 917-937): every file is processed in order, each file's
failure is isolated inside process_single_pdf_advanced, and a summary
is produced at the end. -/
def convert_all_pdfs_to_csv (files : List PdfSource) : BatchSummary :=
  let results := files.map process_single_pdf_advanced
  { outcomes := results.map (fun rows => !rows.isEmpty)
    all_items := results.flatten
    total_items := results.flatten.length }

/-- The structure returned by the mock PDF readers and consumed by
parse_actual_pdf_content: charge fields plus an optional coupon_credit
(read with .get and default 0.00 at lines 315 and 325). -/
structure PdfContent where
  currency : String
  subtotal : ℚ
  shipping : ℚ
  insurance : ℚ
  additional_charges_1 : ℚ
  additional_charges_2 : ℚ
  credit : ℚ
  coupon_credit : Option ℚ
  grand_total : ℚ
  items : List LineItem
deriving DecidableEq

/-- Shallow embedding of parse_actual_pdf_content (lines 292-333): the
coupon credit is folded into the credit field, and the grand total is
recomputed as subtotal + shipping + insurance + both additional
charges - credit - coupon credit (lines 308-315). -/
def parse_actual_pdf_content (c : PdfContent) (order_number : String) : OrderData :=
  let coupon := c.coupon_credit.getD 0
  { order_number := order_number
    items_data := c.items
    subtotal := c.subtotal
    shipping := c.shipping
    insurance := c.insurance
    additional_charges_1 := c.additional_charges_1
    additional_charges_2 := c.additional_charges_2
    credit := c.credit + coupon
    grand_total := c.subtotal + c.shipping + c.insurance + c.additional_charges_1 +
      c.additional_charges_2 - c.credit - coupon
    original_currency := c.currency
    exchange_rate := 1 }

/-- An order whose single item carries only half of the subtotal as its
line total: subtotal 100, shipping 10, one item with line total 50. -/
def c1order : OrderData :=
  { order_number := "1", items_data := [⟨"a", 1, 50, 50⟩]
    subtotal := 100, shipping := 10, insurance := 0
    additional_charges_1 := 0, additional_charges_2 := 0, credit := 0
    grand_total := 110, original_currency := "AUD", exchange_rate := 1 }

/-- An order whose item line totals sum exactly to the subtotal. -/
def c1wOrder : OrderData :=
  { order_number := "2", items_data := [⟨"a", 2, 30, 60⟩, ⟨"b", 1, 40, 40⟩]
    subtotal := 100, shipping := 7, insurance := 1
    additional_charges_1 := 1, additional_charges_2 := 1, credit := 0
    grand_total := 110, original_currency := "AUD", exchange_rate := 1 }

/-- A zero-subtotal order with a nonempty item list. -/
def c2order : OrderData :=
  { order_number := "3", items_data := [⟨"a", 2, 1, 2⟩]
    subtotal := 0, shipping := 5, insurance := 0
    additional_charges_1 := 0, additional_charges_2 := 0, credit := 0
    grand_total := 5, original_currency := "AUD", exchange_rate := 1 }

/-- Extracted amounts with a zero order total. -/
def c2amounts : Amounts :=
  { order_total := 0, shipping := 3, insurance := 0
    additional_1 := 0, additional_2 := 0, credit := 0, grand_total := 3 }

/-- Extracted amounts with order total 3 and shipping 3, giving an
exact 100 percent overhead rate. -/
def c3amounts : Amounts :=
  { order_total := 3, shipping := 3, insurance := 0
    additional_1 := 0, additional_2 := 0, credit := 0, grand_total := 6 }

/-- An item whose line total (3) differs from qty * unit_price (2). -/
def c3item : LineItem := ⟨"c3", 2, 1, 3⟩

/-- An order used to exercise the line-total weighting of the engine. -/
def c3order : OrderData :=
  { order_number := "4", items_data := [⟨"a", 2, 1, 3⟩, ⟨"b", 1, 4, 4⟩]
    subtotal := 7, shipping := 7, insurance := 0
    additional_charges_1 := 0, additional_charges_2 := 0, credit := 0
    grand_total := 14, original_currency := "AUD", exchange_rate := 1 }

/-- A EUR order, eligible for currency conversion. -/
def c4order : OrderData :=
  { order_number := "5", items_data := [⟨"a", 2, 3, 6⟩, ⟨"b", 1, 4, 4⟩]
    subtotal := 10, shipping := 2, insurance := 0
    additional_charges_1 := 0, additional_charges_2 := 0, credit := 0
    grand_total := 12, original_currency := "EUR", exchange_rate := 1 }

/-- An order with credit exceeding the charges, containing an item with
zero line total. -/
def c5order : OrderData :=
  { order_number := "6", items_data := [⟨"z", 1, 5, 0⟩]
    subtotal := 100, shipping := 10, insurance := 0
    additional_charges_1 := 0, additional_charges_2 := 0, credit := 20
    grand_total := 90, original_currency := "AUD", exchange_rate := 1 }

/-- An order with credit exceeding the charges, mixing an item with a
positive line total and an item with line total 0. -/
def c5wOrder : OrderData :=
  { order_number := "7", items_data := [⟨"z", 1, 5, 100⟩, ⟨"y", 2, 3, 0⟩]
    subtotal := 100, shipping := 10, insurance := 0
    additional_charges_1 := 0, additional_charges_2 := 0, credit := 20
    grand_total := 90, original_currency := "AUD", exchange_rate := 1 }

/-- An order containing an item with quantity zero. -/
def c6order : OrderData :=
  { order_number := "8", items_data := [⟨"w", 0, 1, 1⟩]
    subtotal := 10, shipping := 1, insurance := 0
    additional_charges_1 := 0, additional_charges_2 := 0, credit := 0
    grand_total := 11, original_currency := "AUD", exchange_rate := 1 }

/-- An order whose reconciliation difference is 5, far beyond any
plausible tolerance. -/
def c7order : OrderData :=
  { order_number := "9", items_data := [⟨"a", 1, 50, 50⟩]
    subtotal := 100, shipping := 10, insurance := 0
    additional_charges_1 := 0, additional_charges_2 := 0, credit := 0
    grand_total := 110, original_currency := "AUD", exchange_rate := 1 }

/-- Extracted amounts whose overhead rate, one third, rounds to 33.33
percent. -/
def c8amounts : Amounts :=
  { order_total := 3, shipping := 1, insurance := 0
    additional_1 := 0, additional_2 := 0, credit := 0, grand_total := 4 }

/-- A large-quantity item on which the rounded rate visibly shifts the
adjusted total. -/
def c8item : LineItem := ⟨"c8", 100, 3, 300⟩

/-- Extracted amounts for a well-formed PDF in a batch. -/
def c9amounts : Amounts :=
  { order_total := 10, shipping := 1, insurance := 0
    additional_1 := 0, additional_2 := 0, credit := 0, grand_total := 11 }

/-- A readable PDF source used around the failing one in a batch. -/
def c9src : PdfSource := .readable c9amounts [⟨"p", 1, 10, 10⟩]

lemma map_ext_fun {α β : Type} (l : List α) (f g : α → β) (h : ∀ a, f a = g a) :
    l.map f = l.map g := by
  induction l with
  | nil => rfl
  | cons a t ih => simp [h, ih]

lemma forall₂_map_self {α β : Type} (l : List α) (f : α → β) (P : α → β → Prop)
    (h : ∀ a ∈ l, P a (f a)) : List.Forall₂ P l (l.map f) := by
  induction l with
  | nil => exact List.Forall₂.nil
  | cons a t ih =>
    exact List.Forall₂.cons (h a (by simp)) (ih fun x hx => h x (by simp [hx]))

lemma processItems_ok (rate : ℚ) (l : List LineItem)
    (h : ∀ it ∈ l, 0 < it.qty) :
    processItems rate l = .ok (l.map (rowOf rate)) := by
  induction l with
  | nil => rfl
  | cons a t ih =>
    have ha : a.qty ≠ 0 := Nat.pos_iff_ne_zero.mp (h a (by simp))
    have ht : ∀ it ∈ t, 0 < it.qty := fun it hit => h it (by simp [hit])
    simp [processItems, ha, ih ht]

lemma processItems_err (rate : ℚ) (l : List LineItem)
    (h : ∃ it ∈ l, it.qty = 0) :
    processItems rate l = .error .divisionByZero := by
  induction l with
  | nil => simp at h
  | cons a t ih =>
    by_cases ha : a.qty = 0
    · simp [processItems, ha]
    · rcases h with ⟨it, hit, hq⟩
      rcases List.mem_cons.mp hit with h1 | h2
      · exact absurd (h1 ▸ hq) ha
      · simp [processItems, ha, ih ⟨it, h2, hq⟩]

lemma calculate_ok (o : OrderData) (h : ∀ it ∈ o.items_data, 0 < it.qty) :
    calculate_costs_from_data o =
      .ok { additional_cost_rate := additionalCostRate o
            rows := o.items_data.map (rowOf (additionalCostRate o))
            total_additional_costs := totalAdditionalCosts o
            total_additional_distributed :=
              ((o.items_data.map (rowOf (additionalCostRate o))).map
                (fun row => row.item_additional_cost)).sum
            difference :=
              |totalAdditionalCosts o -
                ((o.items_data.map (rowOf (additionalCostRate o))).map
                  (fun row => row.item_additional_cost)).sum|
            total_items := (o.items_data.map (fun it => it.qty)).sum } := by
  unfold calculate_costs_from_data
  simp only [processItems_ok _ _ h]

lemma sum_map_mul_const (l : List LineItem) (c : ℚ) :
    (l.map (fun it => it.total * c)).sum = (l.map (fun it => it.total)).sum * c := by
  induction l with
  | nil => simp
  | cons a t ih => simp [ih, add_mul]

lemma distributed_eq (rate : ℚ) (l : List LineItem) :
    ((l.map (rowOf rate)).map (fun row => row.item_additional_cost)).sum =
      (l.map (fun it => it.total)).sum * rate := by
  rw [List.map_map, ← sum_map_mul_const]
  exact congrArg List.sum (map_ext_fun l _ _ fun it => rfl)

/-- Claim C1 counterexample: the order c1order has subtotal 100 > 0,
but its single item's line total (50) does not exhaust the subtotal,
so the engine distributes 5 while the total overhead is 10; the
reconciliation difference of 5 is far beyond floating tolerance. -/
theorem C1_counterexample :
    0 < c1order.subtotal ∧
    (calculate_costs_from_data c1order).toOption.map
      (fun res => (res.total_additional_distributed, res.total_additional_costs,
        res.difference)) = some (5, 10, 5) ∧
    ¬ ((5 : ℚ) ≤ 1 / 100) := by
  refine ⟨by norm_num [c1order], ?_, by norm_num⟩
  rw [calculate_ok c1order (by decide)]
  norm_num [c1order, rowOf, additionalCostRate, totalAdditionalCosts, Except.toOption]

/-- Claim C1 amended: for every order with subtotal > 0 whose item line
totals sum exactly to the subtotal (and whose quantities are positive,
as the data model requires), the distributed overhead equals the total
overhead exactly, so the reconciliation difference is 0. -/
theorem C1_reconciliation (o : OrderData) (hs : 0 < o.subtotal)
    (hsum : (o.items_data.map (fun it => it.total)).sum = o.subtotal)
    (hq : ∀ it ∈ o.items_data, 0 < it.qty) :
    ∃ res, calculate_costs_from_data o = .ok res ∧
      res.total_additional_distributed = res.total_additional_costs ∧
      res.difference = 0 := by
  refine ⟨_, calculate_ok o hq, ?_, ?_⟩ <;>
    simp only [distributed_eq, hsum, additionalCostRate, if_pos hs]
  · rw [mul_div_cancel₀ _ (ne_of_gt hs)]
  · rw [mul_div_cancel₀ _ (ne_of_gt hs), sub_self, abs_zero]

/-- Claim C1 witness at a concrete order whose line totals sum to the
subtotal. -/
theorem C1_reconciliation_witness :
    0 < c1wOrder.subtotal ∧
    (c1wOrder.items_data.map (fun it => it.total)).sum = c1wOrder.subtotal ∧
    ∃ res, calculate_costs_from_data c1wOrder = .ok res ∧
      res.total_additional_distributed = res.total_additional_costs ∧
      res.difference = 0 :=
  ⟨by norm_num [c1wOrder], by norm_num [c1wOrder],
    C1_reconciliation c1wOrder (by norm_num [c1wOrder]) (by norm_num [c1wOrder]) (by decide)⟩

/-- Claim C2: a zero-subtotal order gets additional_cost_rate 0 and
every item an additional cost of exactly 0, without failing; likewise
calculate_overhead_percentage_advanced returns 0 when the extracted
order total is 0. -/
theorem C2_zero_subtotal (o : OrderData) (a : Amounts) (h0 : o.subtotal = 0)
    (hq : ∀ it ∈ o.items_data, 0 < it.qty) (ha : a.order_total = 0) :
    (∃ res, calculate_costs_from_data o = .ok res ∧
      res.additional_cost_rate = 0 ∧
      ∀ row ∈ res.rows, row.item_additional_cost = 0) ∧
    calculate_overhead_percentage_advanced a = 0 := by
  have hrate : additionalCostRate o = 0 := by
    simp [additionalCostRate, h0]
  refine ⟨⟨_, calculate_ok o hq, hrate, ?_⟩, ?_⟩
  · intro row hrow
    rcases List.mem_map.mp hrow with ⟨it, -, hit⟩
    rw [← hit]
    simp [rowOf, hrate]
  · simp [calculate_overhead_percentage_advanced, ha]

/-- Claim C2 witness at a concrete zero-subtotal order with a nonempty
item list, and zero extracted amounts. -/
theorem C2_zero_subtotal_witness :
    c2order.subtotal = 0 ∧ c2order.items_data ≠ [] ∧
    ((∃ res, calculate_costs_from_data c2order = .ok res ∧
        res.additional_cost_rate = 0 ∧
        ∀ row ∈ res.rows, row.item_additional_cost = 0) ∧
      calculate_overhead_percentage_advanced c2amounts = 0) :=
  ⟨rfl, by simp [c2order], C2_zero_subtotal c2order c2amounts rfl (by decide) rfl⟩

/-- Claim C6: an order with subtotal > 0 containing an item of quantity
zero makes calculate_costs_from_data fail with the division-by-zero
error at the per-unit division, rather than returning a result. -/
theorem C6_zero_quantity (o : OrderData) (_hs : 0 < o.subtotal)
    (h : ∃ it ∈ o.items_data, it.qty = 0) :
    calculate_costs_from_data o = .error .divisionByZero := by
  unfold calculate_costs_from_data
  simp only [processItems_err _ _ h]

/-- Claim C6 witness at a concrete order with a zero-quantity item. -/
theorem C6_zero_quantity_witness :
    0 < c6order.subtotal ∧
    calculate_costs_from_data c6order = .error .divisionByZero :=
  ⟨by norm_num [c6order], C6_zero_quantity c6order (by norm_num [c6order]) (by decide)⟩

/-- Claim C3 counterexample: in the advanced path the per-unit overhead
is computed from unit_price, so for an item whose line total (3)
differs from qty * unit_price (2), the aggregate overhead allocated to
the item is 2, not line_total * overhead_rate = 3. -/
theorem C3_counterexample :
    (processAdvItem (calculate_overhead_percentage_advanced c3amounts) c3item).overhead_amount *
        (c3item.qty : ℚ) = 2 ∧
    c3item.total * (overheadOfAmounts c3amounts / c3amounts.order_total) = 3 ∧
    ((2 : ℚ) ≠ 3) := by
  refine ⟨?_, by norm_num [c3item, c3amounts, overheadOfAmounts], by norm_num⟩
  norm_num [c3item, c3amounts, processAdvItem, calculate_overhead_percentage_advanced,
    overheadOfAmounts, roundPlaces, pyRound]

/-- Claim C3 amended: in calculate_costs_from_data each item's
additional cost is line_total * additional_cost_rate, its per-unit
share is that cost divided by the quantity, and the true unit cost is
unit_price plus the per-unit share — allocation is weighted by line
totals.  The advanced path instead derives the per-unit overhead from
unit_price and a rounded percentage (see the counterexample). -/
theorem C3_line_total_weighting (o : OrderData)
    (hq : ∀ it ∈ o.items_data, 0 < it.qty) :
    ∃ res, calculate_costs_from_data o = .ok res ∧
      res.additional_cost_rate = additionalCostRate o ∧
      List.Forall₂ (fun it row =>
        row.item_additional_cost = it.total * res.additional_cost_rate ∧
        row.additional_cost_per_unit = row.item_additional_cost / (it.qty : ℚ) ∧
        row.true_unit_cost = it.unit_price + row.additional_cost_per_unit)
        o.items_data res.rows := by
  refine ⟨_, calculate_ok o hq, rfl, ?_⟩
  exact forall₂_map_self _ _ _ fun it _ => ⟨rfl, rfl, rfl⟩

/-- Claim C3 witness at a concrete order. -/
theorem C3_line_total_weighting_witness :
    (∀ it ∈ c3order.items_data, 0 < it.qty) ∧
    ∃ res, calculate_costs_from_data c3order = .ok res ∧
      res.additional_cost_rate = additionalCostRate c3order ∧
      List.Forall₂ (fun it row =>
        row.item_additional_cost = it.total * res.additional_cost_rate ∧
        row.additional_cost_per_unit = row.item_additional_cost / (it.qty : ℚ) ∧
        row.true_unit_cost = it.unit_price + row.additional_cost_per_unit)
        c3order.items_data res.rows :=
  ⟨by decide, C3_line_total_weighting c3order (by decide)⟩

lemma conv_items (o : OrderData) (r : ℚ) (hc : o.original_currency ≠ "AUD") :
    (apply_currency_conversion o r).items_data = o.items_data.map (convertItem r) := by
  simp [apply_currency_conversion, hc]

lemma conv_subtotal (o : OrderData) (r : ℚ) (hc : o.original_currency ≠ "AUD") :
    (apply_currency_conversion o r).subtotal = o.subtotal * r := by
  simp [apply_currency_conversion, hc]

lemma conv_tac (o : OrderData) (r : ℚ) (hc : o.original_currency ≠ "AUD") :
    totalAdditionalCosts (apply_currency_conversion o r) = totalAdditionalCosts o * r := by
  simp only [totalAdditionalCosts, apply_currency_conversion, hc, ne_eq,
    not_false_eq_true, if_true]
  ring

lemma conv_rate_invariant (o : OrderData) (r : ℚ) (hr : 0 < r)
    (hc : o.original_currency ≠ "AUD") :
    additionalCostRate (apply_currency_conversion o r) = additionalCostRate o := by
  unfold additionalCostRate
  rw [conv_subtotal o r hc, conv_tac o r hc]
  by_cases hs : 0 < o.subtotal
  · rw [if_pos (mul_pos hs hr), if_pos hs, mul_div_mul_right _ _ (ne_of_gt hr)]
  · have hsr : ¬ 0 < o.subtotal * r := by
      intro hpos
      have hle : o.subtotal ≤ 0 := not_lt.mp hs
      nlinarith
    rw [if_neg hsr, if_neg hs]

/-- Claim C4: converting a non-AUD order with any positive exchange
rate leaves the engine's additional_cost_rate unchanged, and every
true unit cost on the converted order is exactly the rate times the
true unit cost on the unconverted order. -/
theorem C4_rate_invariance (o : OrderData) (r : ℚ) (hr : 0 < r)
    (hc : o.original_currency ≠ "AUD") (hq : ∀ it ∈ o.items_data, 0 < it.qty) :
    additionalCostRate (apply_currency_conversion o r) = additionalCostRate o ∧
    ∃ res res2, calculate_costs_from_data o = .ok res ∧
      calculate_costs_from_data (apply_currency_conversion o r) = .ok res2 ∧
      res2.rows.map (fun row => row.true_unit_cost) =
        res.rows.map (fun row => r * row.true_unit_cost) := by
  have hq2 : ∀ it ∈ (apply_currency_conversion o r).items_data, 0 < it.qty := by
    rw [conv_items o r hc]
    intro it hit
    rcases List.mem_map.mp hit with ⟨x, hx, hxe⟩
    rw [← hxe]
    exact hq x hx
  refine ⟨conv_rate_invariant o r hr hc, _, _, calculate_ok o hq, calculate_ok _ hq2, ?_⟩
  dsimp only
  rw [conv_items o r hc, conv_rate_invariant o r hr hc, List.map_map, List.map_map,
    List.map_map]
  apply map_ext_fun
  intro it
  simp only [Function.comp_apply, rowOf, convertItem]
  ring

/-- Claim C4 witness: a concrete EUR order converted at rate 2. -/
theorem C4_rate_invariance_witness :
    (0 : ℚ) < 2 ∧ c4order.original_currency ≠ "AUD" ∧
    (additionalCostRate (apply_currency_conversion c4order 2) = additionalCostRate c4order ∧
      ∃ res res2, calculate_costs_from_data c4order = .ok res ∧
        calculate_costs_from_data (apply_currency_conversion c4order 2) = .ok res2 ∧
        res2.rows.map (fun row => row.true_unit_cost) =
          res.rows.map (fun row => 2 * row.true_unit_cost)) :=
  ⟨by norm_num, by decide, C4_rate_invariance c4order 2 (by norm_num) (by decide) (by decide)⟩

/-- Claim C5 counterexample: on an order with total overhead -10 and
subtotal 100, an item with line total 0 receives no reduction: its
true unit cost equals its unit price (5), so the strict inequality of
the claim fails. -/
theorem C5_counterexample :
    totalAdditionalCosts c5order < 0 ∧ 0 < c5order.subtotal ∧
    (calculate_costs_from_data c5order).toOption.map
      (fun res => res.rows.map (fun row => (row.true_unit_cost, row.unit_price))) =
      some [(5, 5)] ∧
    ¬ ((5 : ℚ) < 5) := by
  refine ⟨by norm_num [c5order, totalAdditionalCosts], by norm_num [c5order], ?_, by norm_num⟩
  rw [calculate_ok c5order (by decide)]
  norm_num [c5order, rowOf, additionalCostRate, totalAdditionalCosts, Except.toOption]

/-- Claim C5 amended: for every order with positive subtotal whose
credit exceeds the charges (items of positive quantity, per the data
model), the engine succeeds, and item by item: a positive line total
gives a true unit cost strictly below the unit price, while a line
total of 0 keeps exactly the unit price.  Mixed orders are covered:
no hypothesis constrains the line totals. -/
theorem C5_negative_overhead (o : OrderData) (hs : 0 < o.subtotal)
    (hneg : totalAdditionalCosts o < 0)
    (hq : ∀ it ∈ o.items_data, 0 < it.qty) :
    ∃ res, calculate_costs_from_data o = .ok res ∧
      List.Forall₂ (fun it row =>
        (0 < it.total → row.true_unit_cost < it.unit_price) ∧
        (it.total = 0 → row.true_unit_cost = it.unit_price))
        o.items_data res.rows := by
  have hrate : additionalCostRate o < 0 := by
    rw [additionalCostRate, if_pos hs]
    exact div_neg_of_neg_of_pos hneg hs
  refine ⟨_, calculate_ok o hq, ?_⟩
  apply forall₂_map_self
  intro it hit
  have h1 : 0 < (it.qty : ℚ) := by exact_mod_cast hq it hit
  constructor
  · intro hpos
    have h2 : it.total * additionalCostRate o < 0 :=
      mul_neg_of_pos_of_neg hpos hrate
    have h3 : it.total * additionalCostRate o / (it.qty : ℚ) < 0 :=
      div_neg_of_neg_of_pos h2 h1
    simp only [rowOf]
    linarith
  · intro h0
    simp [rowOf, h0]

/-- Claim C5 witness: with subtotal 100, shipping 10 and credit 20, the
item with line total 100 drops below its unit price while the item
with line total 0 keeps its unit price, in the same order. -/
theorem C5_negative_overhead_witness :
    0 < c5wOrder.subtotal ∧ totalAdditionalCosts c5wOrder < 0 ∧
    ∃ res, calculate_costs_from_data c5wOrder = .ok res ∧
      List.Forall₂ (fun it row =>
        (0 < it.total → row.true_unit_cost < it.unit_price) ∧
        (it.total = 0 → row.true_unit_cost = it.unit_price))
        c5wOrder.items_data res.rows :=
  ⟨by norm_num [c5wOrder], by norm_num [c5wOrder, totalAdditionalCosts],
    C5_negative_overhead c5wOrder (by norm_num [c5wOrder])
      (by norm_num [c5wOrder, totalAdditionalCosts]) (by decide)⟩

/-- Claim C7 counterexample: an order whose reconciliation difference
is 5 — far beyond the 0.01 tolerance of the claim — still completes
with an ordinary result; the code performs no tolerance check and has
no warning outcome, it only reports the difference itself. -/
theorem C7_counterexample :
    (calculate_costs_from_data c7order).toOption.map (fun res => res.difference) =
      some 5 ∧
    ¬ ((5 : ℚ) ≤ 1 / 100) := by
  refine ⟨?_, by norm_num⟩
  rw [calculate_ok c7order (by decide)]
  norm_num [c7order, rowOf, additionalCostRate, totalAdditionalCosts, Except.toOption]

/-- Claim C7 amended: the engine always reports the reconciliation
difference, namely the absolute value of total overhead minus the
distributed total, alongside its results, and never aborts on it —
unconditionally, with no tolerance check or warning outcome. -/
theorem C7_difference_reported (o : OrderData)
    (hq : ∀ it ∈ o.items_data, 0 < it.qty) :
    ∃ res, calculate_costs_from_data o = .ok res ∧
      res.difference =
        |res.total_additional_costs - res.total_additional_distributed| ∧
      res.total_additional_costs = totalAdditionalCosts o :=
  ⟨_, calculate_ok o hq, rfl, rfl⟩

/-- Claim C7 witness at a concrete order. -/
theorem C7_difference_reported_witness :
    (∀ it ∈ c7order.items_data, 0 < it.qty) ∧
    ∃ res, calculate_costs_from_data c7order = .ok res ∧
      res.difference =
        |res.total_additional_costs - res.total_additional_distributed| ∧
      res.total_additional_costs = totalAdditionalCosts c7order :=
  ⟨by decide, C7_difference_reported c7order (by decide)⟩

/-- Claim C8 counterexample: with order total 3 and shipping 1 the
overhead percentage rounds to 33.33, and that rounded value feeds the
adjusted price arithmetic: the adjusted total of a 100-unit item at
unit price 3 becomes 399.99, while the unrounded rate would give
exactly 400. -/
theorem C8_counterexample :
    calculate_overhead_percentage_advanced c8amounts = 3333 / 100 ∧
    (processAdvItem (calculate_overhead_percentage_advanced c8amounts) c8item).adjusted_total =
      39999 / 100 ∧
    roundPlaces 2 ((c8item.unit_price +
      c8item.unit_price * (overheadOfAmounts c8amounts / c8amounts.order_total)) *
        (c8item.qty : ℚ)) = 400 ∧
    ((39999 : ℚ) / 100 ≠ 400) := by
  have hpct : calculate_overhead_percentage_advanced c8amounts = 3333 / 100 := by
    norm_num [calculate_overhead_percentage_advanced, c8amounts, overheadOfAmounts,
      roundPlaces, pyRound]
  refine ⟨hpct, ?_, ?_, by norm_num⟩
  · rw [hpct]
    norm_num [processAdvItem, c8item, roundPlaces, pyRound]
  · norm_num [c8item, c8amounts, overheadOfAmounts, roundPlaces, pyRound]

/-- Claim C8 amended: in the legacy export path the rounding is
display-only — every CSV cell is exactly the 4-decimal rounding of the
engine's unrounded internal value, computed from the unrounded
additional_cost_rate.  In the advanced path the 2-decimal-rounded
overhead percentage does feed the arithmetic (see the
counterexample). -/
theorem C8_display_rounding (o : OrderData)
    (hq : ∀ it ∈ o.items_data, 0 < it.qty) :
    ∃ res, calculate_costs_from_data o = .ok res ∧
      create_csv_output o res.additional_cost_rate =
        res.rows.map (fun row =>
          { name := row.name
            qty := row.qty
            original_aud := roundPlaces 4 row.unit_price
            new_aud := roundPlaces 4 row.true_unit_cost }) := by
  refine ⟨_, calculate_ok o hq, ?_⟩
  dsimp only
  rw [create_csv_output, List.map_map]
  apply map_ext_fun
  intro it
  simp only [Function.comp_apply, csvRowOf, rowOf]

/-- Claim C8 witness at a concrete order. -/
theorem C8_display_rounding_witness :
    (∀ it ∈ c3order.items_data, 0 < it.qty) ∧
    ∃ res, calculate_costs_from_data c3order = .ok res ∧
      create_csv_output c3order res.additional_cost_rate =
        res.rows.map (fun row =>
          { name := row.name
            qty := row.qty
            original_aud := roundPlaces 4 row.unit_price
            new_aud := roundPlaces 4 row.true_unit_cost }) :=
  ⟨by decide, C8_display_rounding c3order (by decide)⟩

/-- Claim C9: a failing PDF in the middle of a batch contributes an
empty extraction and a failure outcome, while every earlier and later
file is processed exactly as it would be on its own; the summary
records one outcome per input file and the total item count. -/
theorem C9_batch_isolation (xs ys : List PdfSource) (b : PdfSource)
    (hb : process_single_pdf_advanced b = []) :
    (convert_all_pdfs_to_csv (xs ++ b :: ys)).outcomes =
      (convert_all_pdfs_to_csv xs).outcomes ++
        false :: (convert_all_pdfs_to_csv ys).outcomes ∧
    (convert_all_pdfs_to_csv (xs ++ b :: ys)).all_items =
      (convert_all_pdfs_to_csv xs).all_items ++ (convert_all_pdfs_to_csv ys).all_items ∧
    (convert_all_pdfs_to_csv (xs ++ b :: ys)).outcomes.length = (xs ++ b :: ys).length ∧
    (convert_all_pdfs_to_csv (xs ++ b :: ys)).total_items =
      ((convert_all_pdfs_to_csv xs).all_items ++
        (convert_all_pdfs_to_csv ys).all_items).length := by
  refine ⟨?_, ?_, ?_, ?_⟩ <;>
    simp [convert_all_pdfs_to_csv, hb, List.map_append, List.flatten_append]

/-- Claim C9 witness: a batch of a readable file, an unreadable file
and another readable file. -/
theorem C9_batch_isolation_witness :
    process_single_pdf_advanced PdfSource.unreadable = [] ∧
    ((convert_all_pdfs_to_csv ([c9src] ++ PdfSource.unreadable :: [c9src])).outcomes =
      (convert_all_pdfs_to_csv [c9src]).outcomes ++
        false :: (convert_all_pdfs_to_csv [c9src]).outcomes ∧
    (convert_all_pdfs_to_csv ([c9src] ++ PdfSource.unreadable :: [c9src])).all_items =
      (convert_all_pdfs_to_csv [c9src]).all_items ++
        (convert_all_pdfs_to_csv [c9src]).all_items ∧
    (convert_all_pdfs_to_csv ([c9src] ++ PdfSource.unreadable :: [c9src])).outcomes.length =
      ([c9src] ++ PdfSource.unreadable :: [c9src]).length ∧
    (convert_all_pdfs_to_csv ([c9src] ++ PdfSource.unreadable :: [c9src])).total_items =
      ((convert_all_pdfs_to_csv [c9src]).all_items ++
        (convert_all_pdfs_to_csv [c9src]).all_items).length) :=
  ⟨rfl, C9_batch_isolation [c9src] [c9src] PdfSource.unreadable rfl⟩

/-- Claim C10: the record produced by parse_actual_pdf_content has its
credit equal to the source credit plus the coupon credit (defaulting
to 0 when absent), and its grand total equals its subtotal plus
shipping, insurance and both additional charges minus that merged
credit. -/
theorem C10_coupon_merge (c : PdfContent) (n : String) :
    (parse_actual_pdf_content c n).credit = c.credit + c.coupon_credit.getD 0 ∧
    (parse_actual_pdf_content c n).grand_total =
      (parse_actual_pdf_content c n).subtotal + (parse_actual_pdf_content c n).shipping +
        (parse_actual_pdf_content c n).insurance +
        (parse_actual_pdf_content c n).additional_charges_1 +
        (parse_actual_pdf_content c n).additional_charges_2 -
        (parse_actual_pdf_content c n).credit := by
  refine ⟨rfl, ?_⟩
  simp only [parse_actual_pdf_content]
  ring
